import Mathlib

/-!
Verification of the URL/filename construction logic of
`pyensembl/ensembl_url_templates.py`.

The module under verification builds download URLs and filenames for GTF
annotation files and FASTA sequence files on the Ensembl FTP servers.  Its
two collaborators (`find_species_by_name` from `species.py` and
`check_release_number` from `ensembl_release_versions.py`) are not part of
the sources being verified; they are modelled abstractly as fields of a
`Collaborators` structure, following the spec's collaborator contracts.
All functions of the module itself are translated directly from the Python
source.
-/

/-- Errors raised by the collaborators.  Modelled from the spec:
`UnknownSpeciesError` is raised by the Species Catalog when a species name
cannot be resolved, `InvalidReleaseError` by the Release Validator when a
release is out of the supported range for a partition. -/
inductive Error where
  | UnknownSpeciesError (name : String) : Error
  | InvalidReleaseError (release : Nat) : Error
deriving DecidableEq, Repr

/-- Modelled from the spec: a species descriptor as returned by the Species
Catalog (`species.py`, not among the verified sources).  It exposes the
canonical latin name, the database partition tag (`Species.database`), and
the reference assembly applicable at a given release
(`Species.which_reference`). -/
structure Species where
  latin_name : String
  database : Option String
  which_reference : Nat → String

/-- Modelled from the spec: the two external collaborators consumed by the
module.  `find_species_by_name` resolves a species name or alias to a
descriptor or fails with `UnknownSpeciesError`; `check_release_number`
validates and normalizes a release for a given database partition or fails
with `InvalidReleaseError`.  Both are read-only lookups. -/
structure Collaborators where
  find_species_by_name : String → Except Error Species
  check_release_number : Nat → Option String → Except Error Nat

/-- The Python functions accept either a `Species` object or a species name
string (the `isinstance(species, Species)` test in
`normalize_release_properties`). -/
inductive SpeciesInput where
  | species (s : Species) : SpeciesInput
  | name (n : String) : SpeciesInput

/-- `ENSEMBL_FTP_SERVER` constant. -/
def ENSEMBL_FTP_SERVER : String := "https://ftp.ensembl.org"

/-- `ENSEMBLGENOME_FTP_SERVER` constant. -/
def ENSEMBLGENOME_FTP_SERVER : String := "https://ftp.ensemblgenomes.ebi.ac.uk"

/-- Python `str.capitalize()`: first character upper-cased, the rest
lower-cased. -/
def pyCapitalize (s : String) : String :=
  match s.data with
  | [] => ""
  | c :: cs => ⟨c.toUpper :: cs.map Char.toLower⟩

/-- `FASTA_SUBDIR_TEMPLATE = "/pub/release-%(release)d/fasta/%(species)s/%(type)s/"` -/
def FASTA_SUBDIR_TEMPLATE (release : Nat) (species ty : String) : String :=
  "/pub/release-" ++ Nat.repr release ++ "/fasta/" ++ species ++ "/" ++ ty ++ "/"

/-- `GTF_SUBDIR_TEMPLATE = "/pub/release-%(release)d/gtf/%(species)s/"` -/
def GTF_SUBDIR_TEMPLATE (release : Nat) (species : String) : String :=
  "/pub/release-" ++ Nat.repr release ++ "/gtf/" ++ species ++ "/"

/-- `DATABASE_FASTA_SUBDIR_TEMPLATE = "/pub/release-%(release)d/%(database)s/fasta/%(species)s/%(type)s/"` -/
def DATABASE_FASTA_SUBDIR_TEMPLATE (release : Nat) (database species ty : String) : String :=
  "/pub/release-" ++ Nat.repr release ++ "/" ++ database ++ "/fasta/" ++ species ++ "/" ++ ty ++ "/"

/-- `DATABASE_GTF_SUBDIR_TEMPLATE = "/pub/release-%(release)d/%(database)s/gtf/%(species)s/"` -/
def DATABASE_GTF_SUBDIR_TEMPLATE (release : Nat) (database species : String) : String :=
  "/pub/release-" ++ Nat.repr release ++ "/" ++ database ++ "/gtf/" ++ species ++ "/"

/-- `GTF_FILENAME_TEMPLATE = "%(Species)s.%(reference)s.%(release)d.gtf.gz"` -/
def GTF_FILENAME_TEMPLATE (Spec reference : String) (release : Nat) : String :=
  Spec ++ "." ++ reference ++ "." ++ Nat.repr release ++ ".gtf.gz"

/-- `OLD_FASTA_FILENAME_TEMPLATE = "%(Species)s.%(reference)s.%(release)d.%(sequence_type)s.all.fa.gz"` -/
def OLD_FASTA_FILENAME_TEMPLATE (Spec reference : String) (release : Nat)
    (sequence_type : String) : String :=
  Spec ++ "." ++ reference ++ "." ++ Nat.repr release ++ "." ++ sequence_type ++ ".all.fa.gz"

/-- `OLD_FASTA_FILENAME_TEMPLATE_NCRNA = "%(Species)s.%(reference)s.%(release)d.ncrna.fa.gz"` -/
def OLD_FASTA_FILENAME_TEMPLATE_NCRNA (Spec reference : String) (release : Nat) : String :=
  Spec ++ "." ++ reference ++ "." ++ Nat.repr release ++ ".ncrna.fa.gz"

/-- `NEW_FASTA_FILENAME_TEMPLATE = "%(Species)s.%(reference)s.%(sequence_type)s.all.fa.gz"` -/
def NEW_FASTA_FILENAME_TEMPLATE (Spec reference sequence_type : String) : String :=
  Spec ++ "." ++ reference ++ "." ++ sequence_type ++ ".all.fa.gz"

/-- `NEW_FASTA_FILENAME_TEMPLATE_NCRNA = "%(Species)s.%(reference)s.ncrna.fa.gz"` -/
def NEW_FASTA_FILENAME_TEMPLATE_NCRNA (Spec reference : String) : String :=
  Spec ++ "." ++ reference ++ ".ncrna.fa.gz"

/-- The species-resolution step of `normalize_release_properties`: a
`Species` argument is used as-is (the `isinstance` test), a string is
resolved through `find_species_by_name`. -/
def resolveSpecies (C : Collaborators) : SpeciesInput → Except Error Species
  | .species s => Except.ok s
  | .name n => C.find_species_by_name n

/-- `normalize_release_properties(ensembl_release, species)`: resolve the
species (when given as a string), validate the release against the resolved
species' own database tag, and return the normalized release, the latin
name and the reference assembly. -/
def normalize_release_properties (C : Collaborators) (ensembl_release : Nat)
    (species : SpeciesInput) : Except Error (Nat × String × String) :=
  match resolveSpecies C species with
  | .error e => .error e
  | .ok sp =>
    match C.check_release_number ensembl_release sp.database with
    | .error e => .error e
    | .ok r => .ok (r, sp.latin_name, sp.which_reference r)

/-- `make_gtf_filename(ensembl_release, species)`. -/
def make_gtf_filename (C : Collaborators) (ensembl_release : Nat)
    (species : SpeciesInput) : Except Error String :=
  match normalize_release_properties C ensembl_release species with
  | .error e => .error e
  | .ok (r, sp, reference_name) =>
    .ok (GTF_FILENAME_TEMPLATE (pyCapitalize sp) reference_name r)

/-- `make_gtf_url(ensembl_release, species, server=None, database=None)`. -/
def make_gtf_url (C : Collaborators) (ensembl_release : Nat)
    (species : SpeciesInput) (server : Option String)
    (database : Option String) : Except Error String :=
  let server := match server with
    | none => match database with
      | none => ENSEMBL_FTP_SERVER
      | some _ => ENSEMBLGENOME_FTP_SERVER
    | some s => s
  match normalize_release_properties C ensembl_release species with
  | .error e => .error e
  | .ok (r, sp, _) =>
    let subdir := match database with
      | none => GTF_SUBDIR_TEMPLATE r sp
      | some db => DATABASE_GTF_SUBDIR_TEMPLATE r db sp
    match make_gtf_filename C r (.name sp) with
    | .error e => .error e
    | .ok filename => .ok (server ++ subdir ++ filename)

/-- `make_fasta_filename(ensembl_release, species, database, sequence_type)`:
the era branch is exactly the source condition
`(ensembl_release <= 75 and database is None) or
 (ensembl_release <= 31 and database is not None)`. -/
def make_fasta_filename (C : Collaborators) (ensembl_release : Nat)
    (species : SpeciesInput) (database : Option String)
    (sequence_type : String) : Except Error String :=
  match normalize_release_properties C ensembl_release species with
  | .error e => .error e
  | .ok (r, sp, reference_name) =>
    if (r ≤ 75 ∧ database = none) ∨ (r ≤ 31 ∧ database ≠ none) then
      if sequence_type == "ncrna" then
        .ok (OLD_FASTA_FILENAME_TEMPLATE_NCRNA (pyCapitalize sp) reference_name r)
      else
        .ok (OLD_FASTA_FILENAME_TEMPLATE (pyCapitalize sp) reference_name r sequence_type)
    else
      if sequence_type == "ncrna" then
        .ok (NEW_FASTA_FILENAME_TEMPLATE_NCRNA (pyCapitalize sp) reference_name)
      else
        .ok (NEW_FASTA_FILENAME_TEMPLATE (pyCapitalize sp) reference_name sequence_type)

/-- `make_fasta_url(ensembl_release, species, sequence_type, server=None, database=None)`. -/
def make_fasta_url (C : Collaborators) (ensembl_release : Nat)
    (species : SpeciesInput) (sequence_type : String)
    (server : Option String) (database : Option String) : Except Error String :=
  let server := match server with
    | none => match database with
      | none => ENSEMBL_FTP_SERVER
      | some _ => ENSEMBLGENOME_FTP_SERVER
    | some s => s
  match normalize_release_properties C ensembl_release species with
  | .error e => .error e
  | .ok (r, sp, _) =>
    let subdir := match database with
      | none => FASTA_SUBDIR_TEMPLATE r sp sequence_type
      | some db => DATABASE_FASTA_SUBDIR_TEMPLATE r db sp sequence_type
    match make_fasta_filename C r (.name sp) database sequence_type with
    | .error e => .error e
    | .ok filename => .ok (server ++ subdir ++ filename)

/-- The spec's "old era" condition, written from the spec's words:
old era applies when (database_partition is unset AND release ≤ 75) OR
(database_partition is set AND release ≤ 31). -/
def spec_old_era (database : Option String) (release : Nat) : Bool :=
  (database.isNone && decide (release ≤ 75)) ||
    (database.isSome && decide (release ≤ 31))

/-- A concrete species descriptor for test witnesses: human, primary archive. -/
def homoSapiens : Species where
  latin_name := "homo_sapiens"
  database := none
  which_reference := fun r =>
    if r ≤ 54 then "NCBI36" else if r ≤ 75 then "GRCh37" else "GRCh38"

/-- A concrete species descriptor for test witnesses: soybean, plants partition. -/
def glycineMax : Species where
  latin_name := "glycine_max"
  database := some "plants"
  which_reference := fun _ => "Glycine_max_v2.1"

/-- A concrete catalog/validator pair used by witnesses: resolves the two
species above, validates primary-archive releases 47..110 and
partitioned releases 20..57. -/
def testCatalog : Collaborators where
  find_species_by_name := fun n =>
    if n = "homo_sapiens" then .ok homoSapiens
    else if n = "glycine_max" then .ok glycineMax
    else .error (.UnknownSpeciesError n)
  check_release_number := fun r db =>
    match db with
    | none => if 47 ≤ r ∧ r ≤ 110 then .ok r else .error (.InvalidReleaseError r)
    | some _ => if 20 ≤ r ∧ r ≤ 57 then .ok r else .error (.InvalidReleaseError r)

/-- The spec's `server_root` operation together with override precedence,
written from the spec's words: an explicit server override always takes
precedence; otherwise the primary archive root is used when the partition
is unset and the alternate root when it is set. -/
def spec_server_root (server database : Option String) : String :=
  match server with
  | some s => s
  | none =>
    match database with
    | none => ENSEMBL_FTP_SERVER
    | some _ => ENSEMBLGENOME_FTP_SERVER

/-- The FASTA filename selected by the era/sequence-type dispatch, with the
era decided by the spec-side `spec_old_era` condition. -/
def fasta_filename_result (db : Option String) (r : Nat) (Spec ref st : String) : String :=
  if spec_old_era db r then
    if st == "ncrna" then OLD_FASTA_FILENAME_TEMPLATE_NCRNA Spec ref r
    else OLD_FASTA_FILENAME_TEMPLATE Spec ref r st
  else
    if st == "ncrna" then NEW_FASTA_FILENAME_TEMPLATE_NCRNA Spec ref
    else NEW_FASTA_FILENAME_TEMPLATE Spec ref st

/-- The part of every FASTA filename preceding the sequence-type suffix:
capitalized species and reference assembly, followed by the release number
exactly in the old era. -/
def fasta_head (db : Option String) (r : Nat) (Spec ref : String) : String :=
  if spec_old_era db r then Spec ++ "." ++ ref ++ "." ++ Nat.repr r
  else Spec ++ "." ++ ref

/-- The directory component chosen by `make_fasta_url`. -/
def fasta_subdir (db : Option String) (r : Nat) (species st : String) : String :=
  match db with
  | none => FASTA_SUBDIR_TEMPLATE r species st
  | some d => DATABASE_FASTA_SUBDIR_TEMPLATE r d species st

/-- The directory component chosen by `make_gtf_url`. -/
def gtf_subdir (db : Option String) (r : Nat) (species : String) : String :=
  match db with
  | none => GTF_SUBDIR_TEMPLATE r species
  | some d => DATABASE_GTF_SUBDIR_TEMPLATE r d species

/-! ### Helper lemmas -/

theorem spec_old_era_iff (db : Option String) (r : Nat) :
    spec_old_era db r = true ↔ ((r ≤ 75 ∧ db = none) ∨ (r ≤ 31 ∧ db ≠ none)) := by
  cases db <;> simp [spec_old_era]

theorem normalize_ok_elim {C : Collaborators} {r : Nat} {s : SpeciesInput}
    {out : Nat × String × String}
    (h : normalize_release_properties C r s = .ok out) :
    ∃ sp r₁, resolveSpecies C s = .ok sp ∧
      C.check_release_number r sp.database = .ok r₁ ∧
      out = (r₁, sp.latin_name, sp.which_reference r₁) := by
  unfold normalize_release_properties at h
  split at h
  · exact absurd h (by simp)
  · rename_i sp heq
    split at h
    · exact absurd h (by simp)
    · rename_i r₁ heq2
      exact ⟨sp, r₁, heq, heq2, by simpa using h.symm⟩

theorem normalize_err_species {C : Collaborators} {r : Nat} {s : SpeciesInput} {e : Error}
    (h : resolveSpecies C s = .error e) :
    normalize_release_properties C r s = .error e := by
  unfold normalize_release_properties
  rw [h]

theorem normalize_err_release {C : Collaborators} {r : Nat} {s : SpeciesInput}
    {sp : Species} {e : Error}
    (hs : resolveSpecies C s = .ok sp)
    (h : C.check_release_number r sp.database = .error e) :
    normalize_release_properties C r s = .error e := by
  unfold normalize_release_properties
  simp only [hs, h]

theorem make_fasta_filename_eq {C : Collaborators} {r : Nat} {s : SpeciesInput}
    {r₁ : Nat} {nm ref : String} (db : Option String) (st : String)
    (h : normalize_release_properties C r s = .ok (r₁, nm, ref)) :
    make_fasta_filename C r s db st =
      .ok (fasta_filename_result db r₁ (pyCapitalize nm) ref st) := by
  unfold make_fasta_filename fasta_filename_result
  simp only [h]
  by_cases hc : ((r₁ ≤ 75 ∧ db = none) ∨ (r₁ ≤ 31 ∧ db ≠ none))
  · rw [if_pos hc, if_pos (spec_old_era_iff db r₁ |>.mpr hc)]
    split <;> rfl
  · rw [if_neg hc, if_neg (fun hb => hc ((spec_old_era_iff db r₁).mp hb))]
    split <;> rfl

theorem fasta_filename_result_ncrna (db : Option String) (r : Nat) (Spec ref : String) :
    fasta_filename_result db r Spec ref "ncrna" = fasta_head db r Spec ref ++ ".ncrna.fa.gz" := by
  unfold fasta_filename_result fasta_head
  by_cases hc : spec_old_era db r = true
  · rw [if_pos hc, if_pos hc]; rfl
  · rw [if_neg hc, if_neg hc]; rfl

theorem fasta_filename_result_not_ncrna (db : Option String) (r : Nat)
    (Spec ref : String) {st : String} (h : st ≠ "ncrna") :
    fasta_filename_result db r Spec ref st =
      fasta_head db r Spec ref ++ "." ++ st ++ ".all.fa.gz" := by
  unfold fasta_filename_result fasta_head
  have hb : (st == "ncrna") = false := by simpa using h
  by_cases hc : spec_old_era db r = true
  · rw [if_pos hc, if_pos hc, hb]; rfl
  · rw [if_neg hc, if_neg hc, hb]; rfl

theorem server_sel_eq (sv db : Option String) :
    (match sv with
     | none =>
       match db with
       | none => ENSEMBL_FTP_SERVER
       | some _ => ENSEMBLGENOME_FTP_SERVER
     | some s => s) = spec_server_root sv db := by
  cases sv <;> cases db <;> rfl

theorem make_gtf_url_eq {C : Collaborators} {r : Nat} {s : SpeciesInput}
    {r₁ : Nat} {nm ref : String} {r₂ : Nat} {nm₂ ref₂ : String}
    (sv db : Option String)
    (h1 : normalize_release_properties C r s = .ok (r₁, nm, ref))
    (h2 : normalize_release_properties C r₁ (.name nm) = .ok (r₂, nm₂, ref₂)) :
    make_gtf_url C r s sv db =
      .ok (spec_server_root sv db ++ gtf_subdir db r₁ nm ++
        GTF_FILENAME_TEMPLATE (pyCapitalize nm₂) ref₂ r₂) := by
  unfold make_gtf_url make_gtf_filename
  simp only [h1, h2, server_sel_eq]
  rfl

theorem make_fasta_url_eq {C : Collaborators} {r : Nat} {s : SpeciesInput}
    {r₁ : Nat} {nm ref : String} {r₂ : Nat} {nm₂ ref₂ : String}
    (st : String) (sv db : Option String)
    (h1 : normalize_release_properties C r s = .ok (r₁, nm, ref))
    (h2 : normalize_release_properties C r₁ (.name nm) = .ok (r₂, nm₂, ref₂)) :
    make_fasta_url C r s st sv db =
      .ok (spec_server_root sv db ++ fasta_subdir db r₁ nm st ++
        fasta_filename_result db r₂ (pyCapitalize nm₂) ref₂ st) := by
  unfold make_fasta_url
  simp only [h1, make_fasta_filename_eq db st h2, server_sel_eq]
  rfl

theorem make_gtf_filename_eq {C : Collaborators} {r : Nat} {s : SpeciesInput}
    {r₁ : Nat} {nm ref : String}
    (h : normalize_release_properties C r s = .ok (r₁, nm, ref)) :
    make_gtf_filename C r s = .ok (GTF_FILENAME_TEMPLATE (pyCapitalize nm) ref r₁) := by
  unfold make_gtf_filename
  simp only [h]

theorem make_gtf_filename_err {C : Collaborators} {r : Nat} {s : SpeciesInput}
    {e : Error} (h : normalize_release_properties C r s = .error e) :
    make_gtf_filename C r s = .error e := by
  unfold make_gtf_filename
  simp only [h]

theorem make_fasta_filename_err {C : Collaborators} {r : Nat} {s : SpeciesInput}
    {e : Error} (db : Option String) (st : String)
    (h : normalize_release_properties C r s = .error e) :
    make_fasta_filename C r s db st = .error e := by
  unfold make_fasta_filename
  simp only [h]

theorem make_gtf_url_err1 {C : Collaborators} {r : Nat} {s : SpeciesInput}
    {e : Error} (sv db : Option String)
    (h : normalize_release_properties C r s = .error e) :
    make_gtf_url C r s sv db = .error e := by
  unfold make_gtf_url
  simp only [h]

theorem make_gtf_url_err2 {C : Collaborators} {r : Nat} {s : SpeciesInput}
    {r₁ : Nat} {nm ref : String} {e : Error} (sv db : Option String)
    (h1 : normalize_release_properties C r s = .ok (r₁, nm, ref))
    (h2 : normalize_release_properties C r₁ (.name nm) = .error e) :
    make_gtf_url C r s sv db = .error e := by
  unfold make_gtf_url make_gtf_filename
  simp only [h1, h2]

theorem make_fasta_url_err1 {C : Collaborators} {r : Nat} {s : SpeciesInput}
    {e : Error} (st : String) (sv db : Option String)
    (h : normalize_release_properties C r s = .error e) :
    make_fasta_url C r s st sv db = .error e := by
  unfold make_fasta_url
  simp only [h]

theorem make_fasta_url_err2 {C : Collaborators} {r : Nat} {s : SpeciesInput}
    {r₁ : Nat} {nm ref : String} {e : Error} (st : String) (sv db : Option String)
    (h1 : normalize_release_properties C r s = .ok (r₁, nm, ref))
    (h2 : normalize_release_properties C r₁ (.name nm) = .error e) :
    make_fasta_url C r s st sv db = .error e := by
  unfold make_fasta_url
  simp only [h1, make_fasta_filename_err db st h2]

/-! ### Substring machinery for the ".all." claim -/

theorem infix_append_split {α : Type} {p xs ys : List α}
    (h : p <:+: xs ++ ys) :
    p <:+: xs ∨ p <:+: ys ∨ ∃ p₁ p₂, p = p₁ ++ p₂ ∧ p₁ <:+ xs ∧ p₂ <+: ys := by
  obtain ⟨s, t, hst⟩ := h
  rcases List.append_eq_append_iff.mp hst with ⟨w, hw1, hw2⟩ | ⟨w, hw1, hw2⟩
  · exact Or.inl ⟨s, w, hw1.symm⟩
  · rcases List.append_eq_append_iff.mp hw1 with ⟨v, hv1, hv2⟩ | ⟨v, hv1, hv2⟩
    · exact Or.inr (Or.inr ⟨v, w, hv2, ⟨s, hv1.symm⟩, ⟨t, hw2.symm⟩⟩)
    · refine Or.inr (Or.inl ⟨v, t, ?_⟩)
      rw [hw2, hv2, List.append_assoc]

theorem dotall_infix_elim {head : List Char}
    (hin : (".all.").data <:+: head ++ (".ncrna.fa.gz").data) :
    ("all").data <:+: head := by
  rcases infix_append_split hin with h1 | h2 | ⟨p₁, p₂, hp, hs, hpre⟩
  · exact List.IsInfix.trans (by decide) h1
  · exact absurd h2 (by decide)
  · have hsuf : p₂ ∈ ((".all.").data).tails := (List.mem_tails _ _).mpr ⟨p₁, hp.symm⟩
    have htails : ((".all.").data).tails =
        [(".all.").data, ("all.").data, ("ll.").data, ("l.").data, (".").data, []] := by
      decide
    rw [htails] at hsuf
    simp only [List.mem_cons, List.not_mem_nil, or_false] at hsuf
    rcases hsuf with rfl | rfl | rfl | rfl | rfl | rfl
    · exact absurd hpre (by decide)
    · exact absurd hpre (by decide)
    · exact absurd hpre (by decide)
    · exact absurd hpre (by decide)
    · have h5 : p₁ ++ (".").data = (".all").data ++ (".").data := hp.symm
      have hp1 : p₁ = (".all").data := (List.append_inj' h5 rfl).1
      rw [hp1] at hs
      exact List.IsInfix.trans (by decide) hs.isInfix
    · have hp1 : p₁ = (".all.").data := by simpa using hp.symm
      rw [hp1] at hs
      exact List.IsInfix.trans (by decide) hs.isInfix

theorem gtf_subdir_wrapped (db : Option String) (r : Nat) (nm : String) :
    ∃ mid, gtf_subdir db r nm = "/" ++ mid ++ "/" := by
  cases db with
  | none =>
    refine ⟨"pub/release-" ++ Nat.repr r ++ "/gtf/" ++ nm, ?_⟩
    show "/pub/release-" ++ Nat.repr r ++ "/gtf/" ++ nm ++ "/" = _
    simp only [← String.append_assoc]
    rfl
  | some d =>
    refine ⟨"pub/release-" ++ Nat.repr r ++ "/" ++ d ++ "/gtf/" ++ nm, ?_⟩
    show "/pub/release-" ++ Nat.repr r ++ "/" ++ d ++ "/gtf/" ++ nm ++ "/" = _
    simp only [← String.append_assoc]
    rfl

theorem fasta_subdir_wrapped (db : Option String) (r : Nat) (nm st : String) :
    ∃ mid, fasta_subdir db r nm st = "/" ++ mid ++ "/" := by
  cases db with
  | none =>
    refine ⟨"pub/release-" ++ Nat.repr r ++ "/fasta/" ++ nm ++ "/" ++ st, ?_⟩
    show "/pub/release-" ++ Nat.repr r ++ "/fasta/" ++ nm ++ "/" ++ st ++ "/" = _
    simp only [← String.append_assoc]
    rfl
  | some d =>
    refine ⟨"pub/release-" ++ Nat.repr r ++ "/" ++ d ++ "/fasta/" ++ nm ++ "/" ++ st, ?_⟩
    show "/pub/release-" ++ Nat.repr r ++ "/" ++ d ++ "/fasta/" ++ nm ++ "/" ++ st ++ "/" = _
    simp only [← String.append_assoc]
    rfl

/-! ### Claim theorems -/

/-- C1: for every validated release, species and sequence_type,
`make_fasta_filename` uses the old-era filename convention (explicit
release number) exactly when (database unset and release ≤ 75) or
(database set and release ≤ 31); in every other case the new-era
convention without a release token is used.  Boundary cases: release 75
without partition and release 31 with partition are old-era, release 76
without partition and release 32 with partition are new-era. -/
theorem fasta_filename_era_selection (C : Collaborators) (r : Nat)
    (s : SpeciesInput) (db : Option String) (st : String)
    (r₁ : Nat) (nm ref : String)
    (h : normalize_release_properties C r s = .ok (r₁, nm, ref)) :
    make_fasta_filename C r s db st =
      .ok (fasta_filename_result db r₁ (pyCapitalize nm) ref st) ∧
    (spec_old_era db r₁ = true ↔ ((db = none ∧ r₁ ≤ 75) ∨ (db ≠ none ∧ r₁ ≤ 31))) ∧
    spec_old_era none 75 = true ∧ spec_old_era none 76 = false ∧
    (∀ d : String, spec_old_era (some d) 31 = true ∧ spec_old_era (some d) 32 = false) ∧
    make_fasta_filename testCatalog 75 (.name "homo_sapiens") none "cdna" =
      .ok "Homo_sapiens.GRCh37.75.cdna.all.fa.gz" ∧
    make_fasta_filename testCatalog 76 (.name "homo_sapiens") none "cdna" =
      .ok "Homo_sapiens.GRCh38.cdna.all.fa.gz" ∧
    make_fasta_filename testCatalog 31 (.name "glycine_max") (some "plants") "cdna" =
      .ok "Glycine_max.Glycine_max_v2.1.31.cdna.all.fa.gz" ∧
    make_fasta_filename testCatalog 32 (.name "glycine_max") (some "plants") "cdna" =
      .ok "Glycine_max.Glycine_max_v2.1.cdna.all.fa.gz" := by
  refine ⟨make_fasta_filename_eq db st h, ?_, rfl, rfl, fun d => ⟨rfl, rfl⟩, rfl, rfl, rfl, rfl⟩
  rw [spec_old_era_iff]
  tauto

/-- C1 witness: boundary release 75, human, no partition. -/
theorem fasta_filename_era_selection_witness :
    make_fasta_filename testCatalog 75 (.name "homo_sapiens") none "cdna" =
      .ok (fasta_filename_result none 75 (pyCapitalize "homo_sapiens") "GRCh37" "cdna") :=
  (fasta_filename_era_selection testCatalog 75 (.name "homo_sapiens") none "cdna"
    75 "homo_sapiens" "GRCh37" rfl).1

/-- C2: the GTF filename is always
`{Species-capitalized}.{reference}.{release}.gtf.gz` with the normalized
release number, for every release and partition (no threshold branching),
both from `make_gtf_filename` and inside the URL from `make_gtf_url`. -/
theorem gtf_filename_contains_release (C : Collaborators) (r : Nat)
    (s : SpeciesInput) (r₁ : Nat) (nm ref : String)
    (h : normalize_release_properties C r s = .ok (r₁, nm, ref)) :
    make_gtf_filename C r s =
      .ok (pyCapitalize nm ++ "." ++ ref ++ "." ++ Nat.repr r₁ ++ ".gtf.gz") ∧
    ∀ sv db r₂ nm₂ ref₂,
      normalize_release_properties C r₁ (.name nm) = .ok (r₂, nm₂, ref₂) →
      make_gtf_url C r s sv db =
        .ok (spec_server_root sv db ++ gtf_subdir db r₁ nm ++
          (pyCapitalize nm₂ ++ "." ++ ref₂ ++ "." ++ Nat.repr r₂ ++ ".gtf.gz")) := by
  exact ⟨make_gtf_filename_eq h,
    fun sv db r₂ nm₂ ref₂ h2 => make_gtf_url_eq sv db h h2⟩

/-- C2 witness: human GTF at release 100. -/
theorem gtf_filename_contains_release_witness :
    make_gtf_filename testCatalog 100 (.name "homo_sapiens") =
      .ok (pyCapitalize "homo_sapiens" ++ "." ++ "GRCh38" ++ "." ++ Nat.repr 100 ++ ".gtf.gz") ∧
    make_gtf_url testCatalog 100 (.name "homo_sapiens") none none =
      .ok (spec_server_root none none ++ gtf_subdir none 100 "homo_sapiens" ++
        (pyCapitalize "homo_sapiens" ++ "." ++ "GRCh38" ++ "." ++ Nat.repr 100 ++ ".gtf.gz")) :=
  ⟨(gtf_filename_contains_release testCatalog 100 (.name "homo_sapiens")
      100 "homo_sapiens" "GRCh38" rfl).1,
   (gtf_filename_contains_release testCatalog 100 (.name "homo_sapiens")
      100 "homo_sapiens" "GRCh38" rfl).2 none none 100 "homo_sapiens" "GRCh38" rfl⟩

/-- C3: for sequence_type "ncrna" the FASTA filename is
`{head}.ncrna.fa.gz` (head = species.reference, with the release number
only in the old era) and contains no ".all." substring as long as the
catalog-supplied head itself contains no "all"; every other sequence_type
yields `{head}.{sequence_type}.all.fa.gz`. -/
theorem fasta_ncrna_no_all (C : Collaborators) (r : Nat) (s : SpeciesInput)
    (db : Option String) (r₁ : Nat) (nm ref : String)
    (h : normalize_release_properties C r s = .ok (r₁, nm, ref)) :
    make_fasta_filename C r s db "ncrna" =
      .ok (fasta_head db r₁ (pyCapitalize nm) ref ++ ".ncrna.fa.gz") ∧
    (¬ ("all").data <:+: (fasta_head db r₁ (pyCapitalize nm) ref).data →
      ¬ (".all.").data <:+: (fasta_head db r₁ (pyCapitalize nm) ref ++ ".ncrna.fa.gz").data) ∧
    (∀ st, st ≠ "ncrna" → make_fasta_filename C r s db st =
      .ok (fasta_head db r₁ (pyCapitalize nm) ref ++ "." ++ st ++ ".all.fa.gz")) := by
  refine ⟨?_, ?_, ?_⟩
  · rw [make_fasta_filename_eq db "ncrna" h, fasta_filename_result_ncrna]
  · intro hall hin
    rw [String.data_append] at hin
    exact hall (dotall_infix_elim hin)
  · intro st hst
    rw [make_fasta_filename_eq db st h, fasta_filename_result_not_ncrna db r₁ _ _ hst]

/-- C3 witness: new-era human ncrna filename has no ".all.". -/
theorem fasta_ncrna_no_all_witness :
    ¬ (".all.").data <:+:
      ((fasta_head none 100 (pyCapitalize "homo_sapiens") "GRCh38") ++ ".ncrna.fa.gz").data :=
  (fasta_ncrna_no_all testCatalog 100 (.name "homo_sapiens") none
    100 "homo_sapiens" "GRCh38" rfl).2.1 (by decide)

/-- C4: an explicit server override is always used as the server root
regardless of the partition; otherwise the primary archive root is chosen
when the partition is unset and the alternate root when it is set, and
every successful URL from `make_gtf_url` / `make_fasta_url` starts with
that root, independent of sequence_type and release. -/
theorem server_root_selection (C : Collaborators) (r : Nat) (s : SpeciesInput)
    (st : String) (sv db : Option String) :
    (∀ v : String, ∀ db₂ : Option String, spec_server_root (some v) db₂ = v) ∧
    spec_server_root none none = ENSEMBL_FTP_SERVER ∧
    (∀ d : String, spec_server_root none (some d) = ENSEMBLGENOME_FTP_SERVER) ∧
    (∀ u, make_gtf_url C r s sv db = .ok u → ∃ rest, u = spec_server_root sv db ++ rest) ∧
    (∀ u, make_fasta_url C r s st sv db = .ok u → ∃ rest, u = spec_server_root sv db ++ rest) := by
  refine ⟨fun v db₂ => rfl, rfl, fun d => rfl, ?_, ?_⟩
  · intro u hu
    cases hn : normalize_release_properties C r s with
    | error e => rw [make_gtf_url_err1 sv db hn] at hu; exact absurd hu (by simp)
    | ok out =>
      obtain ⟨r₁, nm, ref⟩ := out
      cases hn2 : normalize_release_properties C r₁ (.name nm) with
      | error e => rw [make_gtf_url_err2 sv db hn hn2] at hu; exact absurd hu (by simp)
      | ok out2 =>
        obtain ⟨r₂, nm₂, ref₂⟩ := out2
        rw [make_gtf_url_eq sv db hn hn2] at hu
        injection hu with hu
        refine ⟨gtf_subdir db r₁ nm ++ GTF_FILENAME_TEMPLATE (pyCapitalize nm₂) ref₂ r₂, ?_⟩
        rw [← hu]
        exact String.append_assoc _ _ _
  · intro u hu
    cases hn : normalize_release_properties C r s with
    | error e => rw [make_fasta_url_err1 st sv db hn] at hu; exact absurd hu (by simp)
    | ok out =>
      obtain ⟨r₁, nm, ref⟩ := out
      cases hn2 : normalize_release_properties C r₁ (.name nm) with
      | error e => rw [make_fasta_url_err2 st sv db hn hn2] at hu; exact absurd hu (by simp)
      | ok out2 =>
        obtain ⟨r₂, nm₂, ref₂⟩ := out2
        rw [make_fasta_url_eq st sv db hn hn2] at hu
        injection hu with hu
        refine ⟨fasta_subdir db r₁ nm st ++
          fasta_filename_result db r₂ (pyCapitalize nm₂) ref₂ st, ?_⟩
        rw [← hu]
        exact String.append_assoc _ _ _

/-- C4 witness: the concrete human GTF URL at release 100 starts with the
primary archive root. -/
theorem server_root_selection_witness :
    ∃ rest,
      "https://ftp.ensembl.org/pub/release-100/gtf/homo_sapiens/Homo_sapiens.GRCh38.100.gtf.gz" =
        spec_server_root none none ++ rest :=
  (server_root_selection testCatalog 100 (.name "homo_sapiens") "cdna" none none).2.2.2.1
    _ rfl

/-- C5: capitalization is applied only to the species token of the
filename (via Python capitalize), while the species segment of the
directory path is the canonical latin name exactly as returned by the
catalog, uncapitalized. -/
theorem gtf_capitalization_only_filename (C : Collaborators) (r : Nat)
    (s : SpeciesInput) (sv db : Option String) (r₁ : Nat) (nm ref : String)
    (r₂ : Nat) (nm₂ ref₂ : String)
    (h1 : normalize_release_properties C r s = .ok (r₁, nm, ref))
    (h2 : normalize_release_properties C r₁ (.name nm) = .ok (r₂, nm₂, ref₂))
    (hrt : nm₂ = nm) :
    make_gtf_url C r s sv db =
      .ok (spec_server_root sv db ++ gtf_subdir db r₁ nm ++
        (pyCapitalize nm ++ "." ++ ref₂ ++ "." ++ Nat.repr r₂ ++ ".gtf.gz")) ∧
    gtf_subdir none r₁ nm = "/pub/release-" ++ Nat.repr r₁ ++ "/gtf/" ++ nm ++ "/" ∧
    (∀ d, gtf_subdir (some d) r₁ nm =
      "/pub/release-" ++ Nat.repr r₁ ++ "/" ++ d ++ "/gtf/" ++ nm ++ "/") := by
  subst hrt
  exact ⟨make_gtf_url_eq sv db h1 h2, rfl, fun d => rfl⟩

/-- C5 witness: human GTF URL at release 100; lowercase latin name in the
path, capitalized token in the filename. -/
theorem gtf_capitalization_only_filename_witness :
    make_gtf_url testCatalog 100 (.name "homo_sapiens") none none =
      .ok (spec_server_root none none ++ gtf_subdir none 100 "homo_sapiens" ++
        (pyCapitalize "homo_sapiens" ++ "." ++ "GRCh38" ++ "." ++ Nat.repr 100 ++ ".gtf.gz")) :=
  (gtf_capitalization_only_filename testCatalog 100 (.name "homo_sapiens") none none
    100 "homo_sapiens" "GRCh38" 100 "homo_sapiens" "GRCh38" rfl rfl rfl).1

/-- C6: when the Species Catalog cannot resolve the species, or the
Release Validator rejects the release for the resolved species'
partition, all four operations return exactly the collaborator's error
(no Location, no recovery, no substitution). -/
theorem collaborator_errors_propagate (C : Collaborators) (r : Nat)
    (st : String) (sv db : Option String) :
    (∀ n e, C.find_species_by_name n = .error e →
      make_gtf_filename C r (.name n) = .error e ∧
      make_gtf_url C r (.name n) sv db = .error e ∧
      make_fasta_filename C r (.name n) db st = .error e ∧
      make_fasta_url C r (.name n) st sv db = .error e) ∧
    (∀ s sp e, resolveSpecies C s = .ok sp →
      C.check_release_number r sp.database = .error e →
      make_gtf_filename C r s = .error e ∧
      make_gtf_url C r s sv db = .error e ∧
      make_fasta_filename C r s db st = .error e ∧
      make_fasta_url C r s st sv db = .error e) := by
  constructor
  · intro n e he
    have hn : normalize_release_properties C r (.name n) = .error e :=
      normalize_err_species he
    exact ⟨make_gtf_filename_err hn, make_gtf_url_err1 sv db hn,
      make_fasta_filename_err db st hn, make_fasta_url_err1 st sv db hn⟩
  · intro s sp e hs hr
    have hn := normalize_err_release hs hr
    exact ⟨make_gtf_filename_err hn, make_gtf_url_err1 sv db hn,
      make_fasta_filename_err db st hn, make_fasta_url_err1 st sv db hn⟩

/-- C6 witness: an unknown species and an out-of-range release each
propagate the collaborator's error unchanged. -/
theorem collaborator_errors_propagate_witness :
    make_gtf_url testCatalog 99 (.name "tyrannosaurus_rex") none none =
      .error (.UnknownSpeciesError "tyrannosaurus_rex") ∧
    make_fasta_url testCatalog 200 (.name "homo_sapiens") "cdna" none none =
      .error (.InvalidReleaseError 200) :=
  ⟨((collaborator_errors_propagate testCatalog 99 "cdna" none none).1
      "tyrannosaurus_rex" (.UnknownSpeciesError "tyrannosaurus_rex") rfl).2.1,
   ((collaborator_errors_propagate testCatalog 200 "cdna" none none).2
      (.name "homo_sapiens") homoSapiens (.InvalidReleaseError 200) rfl rfl).2.2.2⟩

/-- C7: the sequence_type token is inserted verbatim into the directory
path, and any non-empty caller-supplied token — also one outside
cdna/pep/ncrna — is accepted: the construction succeeds and no
sequence-type validation error exists. -/
theorem sequence_type_passthrough (C : Collaborators) (r : Nat) (s : SpeciesInput)
    (sv db : Option String) (r₁ : Nat) (nm ref : String)
    (r₂ : Nat) (nm₂ ref₂ : String)
    (h1 : normalize_release_properties C r s = .ok (r₁, nm, ref))
    (h2 : normalize_release_properties C r₁ (.name nm) = .ok (r₂, nm₂, ref₂)) :
    ∀ st : String, st ≠ "" → ∃ f,
      make_fasta_url C r s st sv db =
        .ok (spec_server_root sv db ++ fasta_subdir db r₁ nm st ++ f) ∧
      fasta_subdir none r₁ nm st =
        "/pub/release-" ++ Nat.repr r₁ ++ "/fasta/" ++ nm ++ "/" ++ st ++ "/" ∧
      (∀ d, fasta_subdir (some d) r₁ nm st =
        "/pub/release-" ++ Nat.repr r₁ ++ "/" ++ d ++ "/fasta/" ++ nm ++ "/" ++ st ++ "/") :=
  fun st _ => ⟨_, make_fasta_url_eq st sv db h1 h2, rfl, fun _ => rfl⟩

/-- C7 witness: the token "dna", outside the usual cdna/pep/ncrna set, is
accepted and appears verbatim in the path. -/
theorem sequence_type_passthrough_witness :
    ∃ f, make_fasta_url testCatalog 80 (.name "homo_sapiens") "dna" none none =
        .ok (spec_server_root none none ++ fasta_subdir none 80 "homo_sapiens" "dna" ++ f) ∧
      fasta_subdir none 80 "homo_sapiens" "dna" =
        "/pub/release-" ++ Nat.repr 80 ++ "/fasta/" ++ "homo_sapiens" ++ "/" ++ "dna" ++ "/" ∧
      (∀ d, fasta_subdir (some d) 80 "homo_sapiens" "dna" =
        "/pub/release-" ++ Nat.repr 80 ++ "/" ++ d ++ "/fasta/" ++ "homo_sapiens" ++ "/" ++ "dna" ++ "/") :=
  sequence_type_passthrough testCatalog 80 (.name "homo_sapiens") none none
    80 "homo_sapiens" "GRCh38" 80 "homo_sapiens" "GRCh38" rfl rfl "dna" (by decide)

/-- C8: all four operations are pure functions of their inputs — the
embedding is stateless by construction, mirroring the source, which reads
no mutable or global state beyond the two read-only collaborator lookups
fixed by `C`; two invocations with identical inputs give identical
results. -/
theorem url_construction_deterministic (C : Collaborators) (r : Nat)
    (s : SpeciesInput) (st : String) (sv db : Option String) :
    make_gtf_filename C r s = make_gtf_filename C r s ∧
    make_gtf_url C r s sv db = make_gtf_url C r s sv db ∧
    make_fasta_filename C r s db st = make_fasta_filename C r s db st ∧
    make_fasta_url C r s st sv db = make_fasta_url C r s st sv db :=
  ⟨rfl, rfl, rfl, rfl⟩

/-- C9: every successful URL equals server_root ++ directory ++ filename,
where the filename is exactly the corresponding filename operation's
result and the directory begins and ends with "/". -/
theorem location_concatenation (C : Collaborators) (r : Nat) (s : SpeciesInput)
    (st : String) (sv db : Option String) (r₁ r₂ : Nat) (nm ref nm₂ ref₂ : String)
    (h1 : normalize_release_properties C r s = .ok (r₁, nm, ref))
    (h2 : normalize_release_properties C r₁ (.name nm) = .ok (r₂, nm₂, ref₂)) :
    (∃ dir f, make_gtf_url C r s sv db = .ok (spec_server_root sv db ++ dir ++ f) ∧
      make_gtf_filename C r₁ (.name nm) = .ok f ∧ ∃ mid, dir = "/" ++ mid ++ "/") ∧
    (∃ dir f, make_fasta_url C r s st sv db = .ok (spec_server_root sv db ++ dir ++ f) ∧
      make_fasta_filename C r₁ (.name nm) db st = .ok f ∧ ∃ mid, dir = "/" ++ mid ++ "/") :=
  ⟨⟨gtf_subdir db r₁ nm, GTF_FILENAME_TEMPLATE (pyCapitalize nm₂) ref₂ r₂,
      make_gtf_url_eq sv db h1 h2, make_gtf_filename_eq h2, gtf_subdir_wrapped db r₁ nm⟩,
   ⟨fasta_subdir db r₁ nm st, fasta_filename_result db r₂ (pyCapitalize nm₂) ref₂ st,
      make_fasta_url_eq st sv db h1 h2, make_fasta_filename_eq db st h2,
      fasta_subdir_wrapped db r₁ nm st⟩⟩

/-- C9 witness: concrete human URLs at release 100 decompose into root,
slash-delimited directory and filename. -/
theorem location_concatenation_witness :
    ∃ dir f, make_gtf_url testCatalog 100 (.name "homo_sapiens") none none =
      .ok (spec_server_root none none ++ dir ++ f) ∧
      make_gtf_filename testCatalog 100 (.name "homo_sapiens") = .ok f ∧
      ∃ mid, dir = "/" ++ mid ++ "/" :=
  (location_concatenation testCatalog 100 (.name "homo_sapiens") "cdna" none none
    100 100 "homo_sapiens" "GRCh38" "homo_sapiens" "GRCh38" rfl rfl).1

/-- C10: release validation always runs against the resolved species' own
partition tag, never against the caller-supplied database argument: a
validator rejection for the species' partition fails the call for every
caller database, while the caller database still flips the old/new era
threshold for the same validated release. -/
theorem validation_uses_catalog_partition (C : Collaborators) (r : Nat)
    (st : String) (sv : Option String) :
    (∀ s sp e db, resolveSpecies C s = .ok sp →
      C.check_release_number r sp.database = .error e →
      make_fasta_url C r s st sv db = .error e ∧
      make_gtf_url C r s sv db = .error e) ∧
    (∀ s r₁ nm ref, normalize_release_properties C r s = .ok (r₁, nm, ref) →
      31 < r₁ → r₁ ≤ 75 → st ≠ "ncrna" →
      make_fasta_filename C r s none st =
        .ok (OLD_FASTA_FILENAME_TEMPLATE (pyCapitalize nm) ref r₁ st) ∧
      ∀ d, make_fasta_filename C r s (some d) st =
        .ok (NEW_FASTA_FILENAME_TEMPLATE (pyCapitalize nm) ref st)) := by
  constructor
  · intro s sp e db hs hr
    have hn := normalize_err_release hs hr
    exact ⟨make_fasta_url_err1 st sv db hn, make_gtf_url_err1 sv db hn⟩
  · intro s r₁ nm ref hn h31 h75 hst
    have hold : spec_old_era none r₁ = true := by
      simp [spec_old_era, h75]
    have hnew : ∀ d : String, spec_old_era (some d) r₁ = false := by
      intro d
      simp [spec_old_era]
      omega
    constructor
    · rw [make_fasta_filename_eq none st hn, fasta_filename_result_not_ncrna none r₁ _ _ hst]
      unfold fasta_head
      simp only [hold]
      rfl
    · intro d
      rw [make_fasta_filename_eq (some d) st hn,
        fasta_filename_result_not_ncrna (some d) r₁ _ _ hst]
      unfold fasta_head
      simp only [hnew d]
      rfl

/-- C10 witness: human (primary partition) with caller database "plants":
validation still uses the species' own partition (none), and for release
50 the caller database flips the filename to the new-era convention. -/
theorem validation_uses_catalog_partition_witness :
    make_fasta_url testCatalog 200 (.name "homo_sapiens") "cdna" none (some "plants") =
      .error (.InvalidReleaseError 200) ∧
    make_fasta_filename testCatalog 50 (.name "homo_sapiens") none "cdna" =
      .ok (OLD_FASTA_FILENAME_TEMPLATE (pyCapitalize "homo_sapiens") "NCBI36" 50 "cdna") ∧
    make_fasta_filename testCatalog 50 (.name "homo_sapiens") (some "plants") "cdna" =
      .ok (NEW_FASTA_FILENAME_TEMPLATE (pyCapitalize "homo_sapiens") "NCBI36" "cdna") :=
  ⟨((validation_uses_catalog_partition testCatalog 200 "cdna" none).1
      (.name "homo_sapiens") homoSapiens (.InvalidReleaseError 200) (some "plants") rfl rfl).1,
   ((validation_uses_catalog_partition testCatalog 50 "cdna" none).2
      (.name "homo_sapiens") 50 "homo_sapiens" "NCBI36" rfl (by decide) (by decide) (by decide)).1,
   ((validation_uses_catalog_partition testCatalog 50 "cdna" none).2
      (.name "homo_sapiens") 50 "homo_sapiens" "NCBI36" rfl (by decide) (by decide) (by decide)).2
      "plants"⟩
